import Mathlib

/-!
Shallow embedding of the rust-utp repository (torresmo.rs and src/util.rs).

The packet header is a packed struct of eight fields; the source serializes
it by reinterpreting the struct memory as 20 bytes, after storing each
multi-byte field through `to_be16` / `to_be32`.  The net wire format is
therefore each field in big-endian byte order, in declaration order, which
is what `UtpPacketHeader.bytes` below produces.  Machine integers are
modelled as `Nat` with explicit `% 2 ^ w` where the source wraps.
-/

namespace Torresmo

/-- The packet type discriminants of `UtpPacketType` in torresmo.rs. -/
inductive UtpPacketType
  | ST_DATA
  | ST_FIN
  | ST_STATE
  | ST_RESET
  | ST_SYN
  deriving DecidableEq

/-- The numeric discriminant of each packet type (`ST_DATA = 0`, ..., `ST_SYN = 4`). -/
def UtpPacketType.toNat : UtpPacketType → Nat
  | .ST_DATA => 0
  | .ST_FIN => 1
  | .ST_STATE => 2
  | .ST_RESET => 3
  | .ST_SYN => 4

/-- The packed 20-byte header struct `UtpPacketHeader` of torresmo.rs.
Fields hold the logical (host-order) values; byte order is applied in `bytes`. -/
structure UtpPacketHeader where
  type_ver : Nat
  extension : Nat
  connection_id : Nat
  timestamp_microseconds : Nat
  timestamp_difference_microseconds : Nat
  wnd_size : Nat
  seq_nr : Nat
  ack_nr : Nat
  deriving DecidableEq

/-- Big-endian byte pair of a 16-bit value. -/
def be16 (n : Nat) : List Nat :=
  [n / 2 ^ 8 % 2 ^ 8, n % 2 ^ 8]

/-- Big-endian byte quadruple of a 32-bit value. -/
def be32 (n : Nat) : List Nat :=
  [n / 2 ^ 24 % 2 ^ 8, n / 2 ^ 16 % 2 ^ 8, n / 2 ^ 8 % 2 ^ 8, n % 2 ^ 8]

/-- `UtpPacketHeader::bytes`: the 20 wire bytes of the header, each field in
declaration order, multi-byte fields big-endian (the source's packed-struct
view combined with its `to_be16` / `to_be32` stores). -/
def UtpPacketHeader.bytes (h : UtpPacketHeader) : List Nat :=
  [h.type_ver % 2 ^ 8, h.extension % 2 ^ 8]
    ++ be16 h.connection_id
    ++ be32 h.timestamp_microseconds
    ++ be32 h.timestamp_difference_microseconds
    ++ be32 h.wnd_size
    ++ be16 h.seq_nr
    ++ be16 h.ack_nr

/-- `UtpPacketHeader::len`: the fixed header size, 20 bytes. -/
def UtpPacketHeader.len (_h : UtpPacketHeader) : Nat := 20

/-- `UtpPacket` of torresmo.rs: a header plus an opaque payload. -/
structure UtpPacket where
  header : UtpPacketHeader
  payload : List Nat
  deriving DecidableEq

/-- `UtpPacket::new`: an empty DATA packet, version 1, all other fields zero. -/
def UtpPacket.new : UtpPacket :=
  { header :=
      { type_ver := UtpPacketType.ST_DATA.toNat <<< 4 ||| 1
        extension := 0
        connection_id := 0
        timestamp_microseconds := 0
        timestamp_difference_microseconds := 0
        wnd_size := 0
        seq_nr := 0
        ack_nr := 0 }
    payload := [] }

/-- `UtpPacket::set_type`: keep the low version nibble, replace the type nibble. -/
def UtpPacket.set_type (p : UtpPacket) (t : UtpPacketType) : UtpPacket :=
  let version := 0x0F &&& p.header.type_ver
  { p with header := { p.header with type_ver := t.toNat <<< 4 ||| version } }

/-- `UtpPacket::bytes`: header bytes followed by the payload. -/
def UtpPacket.bytes (p : UtpPacket) : List Nat :=
  p.header.bytes ++ p.payload

/-- `UtpPacket::len`: header length plus payload length. -/
def UtpPacket.len (p : UtpPacket) : Nat :=
  p.header.len + p.payload.length

/-- A header is valid when every field fits its declared width. -/
def UtpPacketHeader.Valid (h : UtpPacketHeader) : Prop :=
  h.type_ver < 2 ^ 8 ∧ h.extension < 2 ^ 8 ∧ h.connection_id < 2 ^ 16 ∧
    h.timestamp_microseconds < 2 ^ 32 ∧
    h.timestamp_difference_microseconds < 2 ^ 32 ∧
    h.wnd_size < 2 ^ 32 ∧ h.seq_nr < 2 ^ 16 ∧ h.ack_nr < 2 ^ 16

instance (h : UtpPacketHeader) : Decidable h.Valid := by
  unfold UtpPacketHeader.Valid
  infer_instance

/-- Modelled from the spec: the repository has no `decode`; §4.1 specifies
`decode(bytes) -> Packet` failing when the buffer is shorter than the 20-byte
header and otherwise reading the fields at their fixed offsets (multi-byte
fields big-endian), the remaining bytes being the payload. -/
def decode (b : List Nat) : Option UtpPacket :=
  match b with
  | b0 :: b1 :: b2 :: b3 :: b4 :: b5 :: b6 :: b7 :: b8 :: b9 :: b10 :: b11 ::
      b12 :: b13 :: b14 :: b15 :: b16 :: b17 :: b18 :: b19 :: payload =>
    some
      { header :=
          { type_ver := b0
            extension := b1
            connection_id := b2 * 2 ^ 8 + b3
            timestamp_microseconds := b4 * 2 ^ 24 + b5 * 2 ^ 16 + b6 * 2 ^ 8 + b7
            timestamp_difference_microseconds :=
              b8 * 2 ^ 24 + b9 * 2 ^ 16 + b10 * 2 ^ 8 + b11
            wnd_size := b12 * 2 ^ 24 + b13 * 2 ^ 16 + b14 * 2 ^ 8 + b15
            seq_nr := b16 * 2 ^ 8 + b17
            ack_nr := b18 * 2 ^ 8 + b19 }
        payload := payload }
  | _ => none

/-- A UDP endpoint address (IP and port), with decidable equality as in the
source's `SocketAddr` comparison. -/
structure SocketAddr where
  ip : Nat
  port : Nat
  deriving DecidableEq

/-- Opaque I/O error values, standing for the source's `IoError`. -/
abbrev IoError := Nat

/-- `UtpStream` of torresmo.rs, without the socket handle: the remote address
and the per-connection counters.  `connection_id` holds the value stored by
`UtpStream::new` (the byte-swapped random draw), which `connect` and `write`
copy verbatim into outgoing packets. -/
structure UtpStream where
  connected_to : SocketAddr
  connection_id : Nat
  seq_nr : Nat
  ack_nr : Nat
  deriving DecidableEq

/-- `UtpStream::new`: the connection id draw `to_be16(random())` is passed in
as `cid`; `seq_nr` starts at 1 and `ack_nr` at 0. -/
def UtpStream.new (conn : SocketAddr) (cid : Nat) : UtpStream :=
  { connected_to := conn
    connection_id := cid
    seq_nr := 1
    ack_nr := 0 }

/-- `UtpStream::connect`: build a SYN packet carrying the stream's
connection id, its current `seq_nr` and the clock sample `t` (microseconds,
truncated to 32 bits as in the source's `as u32` casts), send it, and
increment `seq_nr` (a `u16`, so modulo 2^16).  Returns the updated stream and
the packet handed to `sendto`. -/
def UtpStream.connect (s : UtpStream) (t : Nat) : UtpStream × UtpPacket :=
  let packet := UtpPacket.new
  let packet := packet.set_type .ST_SYN
  let packet :=
    { packet with
        header :=
          { packet.header with
              connection_id := s.connection_id
              seq_nr := s.seq_nr
              timestamp_microseconds := t % 2 ^ 32 } }
  ({ s with seq_nr := (s.seq_nr + 1) % 2 ^ 16 }, packet)

/-- `Writer::write` for `UtpStream`: build a fresh packet (hence type DATA,
version 1), set its payload to `buf`, copy the connection id and current
`seq_nr`, stamp the clock sample `t`, send, and increment `seq_nr` modulo
2^16.  Returns the updated stream and the packet handed to `sendto`. -/
def UtpStream.write (s : UtpStream) (buf : List Nat) (t : Nat) :
    UtpStream × UtpPacket :=
  let packet := UtpPacket.new
  let packet := { packet with payload := buf }
  let packet :=
    { packet with
        header :=
          { packet.header with
              connection_id := s.connection_id
              seq_nr := s.seq_nr
              timestamp_microseconds := t % 2 ^ 32 } }
  ({ s with seq_nr := (s.seq_nr + 1) % 2 ^ 16 }, packet)

/-- `Reader::read` for `UtpStream`: `recv` is the outcome of
`recvfrom` — an error, or the datagram bytes copied into the caller's buffer
together with the source address.  A datagram from a foreign source yields
`Ok(0)`; one from the connected peer yields the number of bytes received;
an error passes through.  No stream field is assigned. -/
def UtpStream.read (s : UtpStream)
    (recv : Except IoError (List Nat × SocketAddr)) :
    UtpStream × Except IoError Nat :=
  match recv with
  | .ok (bytes, src) =>
    if src ≠ s.connected_to then (s, .ok 0) else (s, .ok bytes.length)
  | .error e => (s, .error e)

/-- `ewma` of src/util.rs over exact rationals: seed the fold with the first
sample when one exists (`map_or(0.0, ...)` yields 0 for an empty input), then
fold `avg' = alpha * x + (1 - alpha) * avg` over the remaining samples. -/
def ewma (samples : List ℚ) (alpha : ℚ) : ℚ :=
  match samples with
  | [] => 0
  | first :: rest =>
    rest.foldl (fun avg sample => alpha * sample + (1 - alpha) * avg) first

/-- `abs_diff` of src/util.rs: `a - b` if `a > b`, else `b - a`, generic over
an ordered domain with a subtraction into `U`. -/
def abs_diff {T U : Type} [LinearOrder T] [HSub T T U] (a b : T) : U :=
  if a > b then a - b else b - a

/-- Folding a sequence of writes adds the number of writes to `seq_nr`,
modulo 2^16. -/
lemma seq_nr_writes_aux (ops : List (List Nat × Nat)) (s : UtpStream)
    (h : s.seq_nr < 2 ^ 16) :
    (ops.foldl (fun st op => (st.write op.1 op.2).1) s).seq_nr =
      (s.seq_nr + ops.length) % 2 ^ 16 := by
  induction ops generalizing s with
  | nil => simpa using (Nat.mod_eq_of_lt h).symm
  | cons op rest ih =>
    rw [List.foldl_cons, ih _ (Nat.mod_lt _ (by norm_num))]
    show ((s.seq_nr + 1) % 2 ^ 16 + rest.length) % 2 ^ 16 =
      (s.seq_nr + (rest.length + 1)) % 2 ^ 16
    omega

/-- Claim C1: decoding the byte buffer produced by encoding a valid header
with any payload yields exactly the same header and payload, field for
field. -/
theorem decode_encode_roundtrip (h : UtpPacketHeader) (p : List Nat)
    (hv : h.Valid) :
    decode (UtpPacket.bytes ⟨h, p⟩) = some ⟨h, p⟩ := by
  obtain ⟨h1, h2, h3, h4, h5, h6, h7, h8⟩ := hv
  obtain ⟨tv, ex, ci, ts, td, ws, sq, ak⟩ := h
  dsimp only at h1 h2 h3 h4 h5 h6 h7 h8
  simp only [UtpPacket.bytes, UtpPacketHeader.bytes, be16, be32,
    List.cons_append, List.nil_append, decode, Option.some.injEq,
    UtpPacket.mk.injEq, UtpPacketHeader.mk.injEq]
  refine ⟨⟨?_, ?_, ?_, ?_, ?_, ?_, ?_, ?_⟩, trivial⟩ <;> omega

/-- A concrete valid header for the C1 witness. -/
def sampleHeader : UtpPacketHeader :=
  { type_ver := 65
    extension := 0
    connection_id := 4660
    timestamp_microseconds := 3735928559
    timestamp_difference_microseconds := 7
    wnd_size := 42
    seq_nr := 65535
    ack_nr := 3 }

/-- Witness for C1 at a concrete header and payload. -/
theorem decode_encode_roundtrip_witness :
    sampleHeader.Valid ∧
    decode (UtpPacket.bytes ⟨sampleHeader, [1, 2, 3]⟩) =
      some ⟨sampleHeader, [1, 2, 3]⟩ :=
  ⟨by decide, decode_encode_roundtrip sampleHeader [1, 2, 3] (by decide)⟩

/-- Claim C2: on a fresh stream, `connect` sends a SYN whose header `seq_nr`
is 1 and leaves the stream's `seq_nr` at 2, so the first `write` sends a
DATA (version 1) packet with `seq_nr` 2 whose payload is exactly the bytes
written. -/
theorem connect_write_scenario (addr : SocketAddr) (cid t1 t2 : Nat)
    (buf : List Nat) :
    ((UtpStream.new addr cid).connect t1).2.header.seq_nr = 1 ∧
    ((UtpStream.new addr cid).connect t1).2.header.type_ver >>> 4 =
      UtpPacketType.ST_SYN.toNat ∧
    ((UtpStream.new addr cid).connect t1).1.seq_nr = 2 ∧
    (((UtpStream.new addr cid).connect t1).1.write buf t2).2.header.type_ver
        >>> 4 = UtpPacketType.ST_DATA.toNat ∧
    (((UtpStream.new addr cid).connect t1).1.write buf t2).2.header.type_ver
        &&& 15 = 1 ∧
    (((UtpStream.new addr cid).connect t1).1.write buf t2).2.header.seq_nr
        = 2 ∧
    (((UtpStream.new addr cid).connect t1).1.write buf t2).2.payload = buf := by
  refine ⟨rfl, ?_, rfl, ?_, ?_, rfl, rfl⟩ <;>
    simp [UtpStream.new, UtpStream.connect, UtpStream.write, UtpPacket.new,
      UtpPacket.set_type, UtpPacketType.toNat]

/-- Claim C3: a `read` on a stream bound to peer P yields `Ok 0` for a
datagram from any other source, and `Ok n` — the number of datagram bytes
copied into the caller's buffer — for a datagram from P. -/
theorem read_peer_filtering (s : UtpStream) (bytes : List Nat)
    (src : SocketAddr) :
    (src ≠ s.connected_to →
      s.read (.ok (bytes, src)) = (s, .ok 0)) ∧
    (src = s.connected_to →
      s.read (.ok (bytes, src)) = (s, .ok bytes.length)) := by
  constructor <;> intro hsrc <;> simp [UtpStream.read, hsrc]

/-- Witness for C3 at concrete addresses: a foreign datagram reads as length
0, a matching one as its byte count. -/
theorem read_peer_filtering_witness :
    ((⟨3, 4⟩ : SocketAddr) ≠ (UtpStream.new ⟨1, 2⟩ 5).connected_to ∧
      (UtpStream.new ⟨1, 2⟩ 5).read (.ok ([9, 9, 9], ⟨3, 4⟩)) =
        (UtpStream.new ⟨1, 2⟩ 5, .ok 0)) ∧
    ((⟨1, 2⟩ : SocketAddr) = (UtpStream.new ⟨1, 2⟩ 5).connected_to ∧
      (UtpStream.new ⟨1, 2⟩ 5).read (.ok ([9, 9, 9], ⟨1, 2⟩)) =
        (UtpStream.new ⟨1, 2⟩ 5, .ok 3)) :=
  ⟨⟨by decide, (read_peer_filtering _ _ _).1 (by decide)⟩,
   ⟨by decide, (read_peer_filtering _ _ _).2 (by decide)⟩⟩

/-- Claim C4: each `write` increments `seq_nr` by exactly 1 modulo 65536 —
in particular 65535 wraps to 0 — and a sequence of writes adds its length
modulo 65536. -/
theorem write_seq_nr_increment (s : UtpStream) (buf : List Nat) (t : Nat)
    (ops : List (List Nat × Nat)) (h : s.seq_nr < 2 ^ 16) :
    (s.write buf t).1.seq_nr = (s.seq_nr + 1) % 2 ^ 16 ∧
    (s.seq_nr = 65535 → (s.write buf t).1.seq_nr = 0) ∧
    (ops.foldl (fun st op => (st.write op.1 op.2).1) s).seq_nr =
      (s.seq_nr + ops.length) % 2 ^ 16 := by
  refine ⟨rfl, fun hw => ?_, seq_nr_writes_aux ops s h⟩
  show (s.seq_nr + 1) % 2 ^ 16 = 0
  omega

/-- A stream sitting at the wrap point, for the C4 witness. -/
def wrapStream : UtpStream :=
  { connected_to := ⟨1, 2⟩
    connection_id := 5
    seq_nr := 65535
    ack_nr := 0 }

/-- Witness for C4 at the wrap point: a stream whose `seq_nr` is 65535 ends a
write with `seq_nr` 0. -/
theorem write_seq_nr_increment_witness :
    wrapStream.seq_nr < 2 ^ 16 ∧
    ((wrapStream.write [7] 0).1.seq_nr = (wrapStream.seq_nr + 1) % 2 ^ 16 ∧
    (wrapStream.seq_nr = 65535 → (wrapStream.write [7] 0).1.seq_nr = 0) ∧
    (([([7], 0)] : List (List Nat × Nat)).foldl
        (fun st op => (st.write op.1 op.2).1) wrapStream).seq_nr =
      (wrapStream.seq_nr + [([7], 0)].length) % 2 ^ 16) :=
  ⟨by decide, write_seq_nr_increment wrapStream [7] 0 [([7], 0)] (by decide)⟩

/-- Claim C5: the encoded buffer is the 20 header bytes in the fixed field
order (each multi-byte field big-endian) immediately followed by the
payload, with total length exactly 20 plus the payload length and no
padding. -/
theorem packet_bytes_layout (p : UtpPacket) :
    p.bytes =
      [p.header.type_ver % 2 ^ 8, p.header.extension % 2 ^ 8,
       p.header.connection_id / 2 ^ 8 % 2 ^ 8, p.header.connection_id % 2 ^ 8,
       p.header.timestamp_microseconds / 2 ^ 24 % 2 ^ 8,
       p.header.timestamp_microseconds / 2 ^ 16 % 2 ^ 8,
       p.header.timestamp_microseconds / 2 ^ 8 % 2 ^ 8,
       p.header.timestamp_microseconds % 2 ^ 8,
       p.header.timestamp_difference_microseconds / 2 ^ 24 % 2 ^ 8,
       p.header.timestamp_difference_microseconds / 2 ^ 16 % 2 ^ 8,
       p.header.timestamp_difference_microseconds / 2 ^ 8 % 2 ^ 8,
       p.header.timestamp_difference_microseconds % 2 ^ 8,
       p.header.wnd_size / 2 ^ 24 % 2 ^ 8, p.header.wnd_size / 2 ^ 16 % 2 ^ 8,
       p.header.wnd_size / 2 ^ 8 % 2 ^ 8, p.header.wnd_size % 2 ^ 8,
       p.header.seq_nr / 2 ^ 8 % 2 ^ 8, p.header.seq_nr % 2 ^ 8,
       p.header.ack_nr / 2 ^ 8 % 2 ^ 8, p.header.ack_nr % 2 ^ 8]
        ++ p.payload ∧
    p.bytes.length = 20 + p.payload.length ∧
    p.len = 20 + p.payload.length := by
  refine ⟨rfl, ?_, rfl⟩
  simp only [UtpPacket.bytes, UtpPacketHeader.bytes, be16, be32,
    List.length_append, List.length_cons, List.length_nil]

/-- Claim C6: `ewma` of the empty sequence is 0 for every alpha, and `ewma`
of a singleton is the sample itself: the recurrence is seeded with the first
sample, not with zero. -/
theorem ewma_empty_singleton (alpha x : ℚ) :
    ewma [] alpha = 0 ∧ ewma [x] alpha = x :=
  ⟨rfl, rfl⟩

/-- Claim C7: `ewma` on the samples 1..10 with alpha = 1/3 is exactly the
rational 158488/19683. -/
theorem ewma_sequence_exact :
    ewma [1, 2, 3, 4, 5, 6, 7, 8, 9, 10] (1 / 3) = 158488 / 19683 := by
  norm_num [ewma, List.foldl]

/-- Claim C8: `abs_diff` is `a - b` when `a > b` and `b - a` otherwise; it is
symmetric in its arguments, and `abs_diff a a` is 0 whenever the domain's
subtraction satisfies `x - x = 0`. -/
theorem abs_diff_spec {T U : Type} [LinearOrder T] [HSub T T U] [Zero U]
    (a b : T) (hz : ∀ x : T, x - x = (0 : U)) :
    (a > b → abs_diff a b = a - b) ∧
    (¬a > b → abs_diff a b = b - a) ∧
    abs_diff a b = (abs_diff b a : U) ∧
    abs_diff a a = (0 : U) := by
  refine ⟨fun hab => if_pos hab, fun hab => if_neg hab, ?_, ?_⟩
  · unfold abs_diff
    rcases lt_trichotomy a b with hlt | heq | hgt
    · rw [if_neg (asymm hlt), if_pos hlt]
    · subst heq; rfl
    · rw [if_pos hgt, if_neg (asymm hgt)]
  · unfold abs_diff
    rw [if_neg (lt_irrefl a), hz]

/-- Witness for C8 over the integers at a = 7, b = 3. -/
theorem abs_diff_spec_witness :
    (∀ x : ℤ, x - x = (0 : ℤ)) ∧
    (((7 : ℤ) > 3 → abs_diff (7 : ℤ) 3 = 7 - 3) ∧
     (¬(7 : ℤ) > 3 → abs_diff (7 : ℤ) 3 = 3 - 7) ∧
     abs_diff (7 : ℤ) 3 = (abs_diff (3 : ℤ) 7 : ℤ) ∧
     abs_diff (7 : ℤ) 7 = (0 : ℤ)) :=
  ⟨fun x => sub_self x, abs_diff_spec 7 3 (fun x => sub_self x)⟩

/-- Claim C9: `connect` and `write` change only `seq_nr` — `connected_to`,
`connection_id` and `ack_nr` are untouched — and `read` changes no field of
the stream. -/
theorem stream_frame_effects (s : UtpStream) (t tw : Nat) (buf : List Nat)
    (recv : Except IoError (List Nat × SocketAddr)) :
    ((s.connect t).1.connected_to = s.connected_to ∧
     (s.connect t).1.connection_id = s.connection_id ∧
     (s.connect t).1.ack_nr = s.ack_nr) ∧
    ((s.write buf tw).1.connected_to = s.connected_to ∧
     (s.write buf tw).1.connection_id = s.connection_id ∧
     (s.write buf tw).1.ack_nr = s.ack_nr) ∧
    (s.read recv).1 = s := by
  refine ⟨⟨rfl, rfl, rfl⟩, ⟨rfl, rfl, rfl⟩, ?_⟩
  rcases recv with e | ⟨bytes2, src2⟩
  · rfl
  · by_cases hsrc : src2 ≠ s.connected_to <;> simp [UtpStream.read, hsrc]

/-- Claim C10: every packet built by `write` carries `ack_nr = 0`,
`timestamp_difference_microseconds = 0` and `wnd_size = 0` whatever the
stream's state, and its type/version byte encodes type DATA (0) and
version 1. -/
theorem write_packet_constant_fields (s : UtpStream) (buf : List Nat)
    (t : Nat) :
    (s.write buf t).2.header.ack_nr = 0 ∧
    (s.write buf t).2.header.timestamp_difference_microseconds = 0 ∧
    (s.write buf t).2.header.wnd_size = 0 ∧
    (s.write buf t).2.header.type_ver >>> 4 = UtpPacketType.ST_DATA.toNat ∧
    (s.write buf t).2.header.type_ver &&& 15 = 1 := by
  refine ⟨rfl, rfl, rfl, ?_, ?_⟩ <;>
    simp [UtpStream.write, UtpPacket.new, UtpPacketType.toNat]

end Torresmo
